import Mathlib

/-!
Verification development for the Recon Agent service (FastAPI + Semantic
Kernel plugins).  The Python sources are shallowly embedded: pure string
manipulation is translated to functions on `String` / `List Char`, the
external collaborators (Azure OpenAI model calls, SQL Server, blob storage)
are explicit oracle parameters, and the per-request pipeline of
`main.recon_agent_endpoint` is a function from the parsed request body and
the oracles to the HTTP outcome together with the trace of plugin
invocations it performs.
-/

namespace ReconAgent

/-- The backtick character (written via its code point). -/
def btick : Char := Char.ofNat 96

/-- Python `s.replace(pat, "")` for a nonempty `pat`: delete every
non-overlapping occurrence of `pat`, scanning left to right.  The
`p ≠ []` guard only totalizes the function; every pattern used by the
sources (three backticks, "sql", one backtick) is nonempty. -/
def replAll (p : List Char) (l : List Char) : List Char :=
  match l with
  | [] => []
  | c :: t =>
    if h : p ≠ [] ∧ p.isPrefixOf (c :: t) then
      replAll p (List.drop p.length (c :: t))
    else
      c :: replAll p t
termination_by l.length
decreasing_by
  · have hp : 0 < p.length := List.length_pos.mpr h.1
    simp only [List.length_drop, List.length_cons]
    omega
  · simp

/-- Boolean substring test: `pat` occurs contiguously inside `l`. -/
def hasSub (pat : List Char) (l : List Char) : Bool :=
  pat.isPrefixOf l ||
    match l with
    | [] => false
    | _ :: t => hasSub pat t

/-- Python `s.strip()`: drop whitespace from both ends. -/
def pyStrip (l : List Char) : List Char :=
  ((l.dropWhile Char.isWhitespace).reverse.dropWhile Char.isWhitespace).reverse

theorem replAll_length_le (p l : List Char) : (replAll p l).length ≤ l.length := by
  induction l using replAll.induct p with
  | case1 => simp [replAll]
  | case2 c t h ih =>
    rw [replAll]
    simp only [dif_pos h]
    exact le_trans ih (by simp)
  | case3 c t h ih =>
    rw [replAll]
    simp only [dif_neg h, List.length_cons]
    omega

theorem replAll_length_lt (p l : List Char) (hp : p ≠ [])
    (hsub : hasSub p l = true) : (replAll p l).length < l.length := by
  induction l using replAll.induct p with
  | case1 =>
    rw [hasSub] at hsub
    cases p with
    | nil => exact absurd rfl hp
    | cons a as => simp [List.isPrefixOf] at hsub
  | case2 c t h ih =>
    rw [replAll]
    simp only [dif_pos h]
    have h1 : 0 < p.length := List.length_pos.mpr hp
    have h2 := replAll_length_le p (List.drop p.length (c :: t))
    have h3 := List.length_drop p.length (c :: t)
    have h4 : (c :: t).length = t.length + 1 := by simp
    omega
  | case3 c t h ih =>
    rw [replAll]
    simp only [dif_neg h, List.length_cons]
    rw [hasSub] at hsub
    simp only [Bool.or_eq_true] at hsub
    rcases hsub with h1 | h2
    · exact absurd ⟨hp, h1⟩ h
    · have := ih h2
      omega

theorem not_mem_replAll_single (b : Char) (l : List Char) :
    ∀ c ∈ replAll [b] l, c ≠ b := by
  induction l using replAll.induct [b] with
  | case1 => intro c hc; simp [replAll] at hc
  | case2 c t h ih =>
    intro d hd
    rw [replAll] at hd
    simp only [dif_pos h] at hd
    exact ih d hd
  | case3 c t h ih =>
    intro d hd
    rw [replAll] at hd
    simp only [dif_neg h] at hd
    rcases List.mem_cons.mp hd with h1 | h2
    · subst h1
      intro hcb
      subst hcb
      exact h ⟨by simp, by simp [List.isPrefixOf]⟩
    · exact ih d h2

theorem isPrefixOf_replAll (b : Char) (p : List Char) (hp : p ≠ [])
    (hpb : ∀ c ∈ p, c = b) :
    ∀ (q t : List Char), (∀ c ∈ q, c ≠ b) → q.isPrefixOf t = true →
      q.isPrefixOf (replAll p t) = true := by
  intro q
  induction q with
  | nil => intro t _ _; simp [List.isPrefixOf]
  | cons d q' ih =>
    intro t hqb hpre
    cases t with
    | nil => simp [List.isPrefixOf] at hpre
    | cons e t' =>
      simp only [List.isPrefixOf, Bool.and_eq_true, beq_iff_eq] at hpre
      obtain ⟨hde, hq't'⟩ := hpre
      subst hde
      have hnotpre : ¬ (p ≠ [] ∧ p.isPrefixOf (d :: t') = true) := by
        rintro ⟨-, hpp⟩
        cases p with
        | nil => exact hp rfl
        | cons a as =>
          simp only [List.isPrefixOf, Bool.and_eq_true, beq_iff_eq] at hpp
          have hab : a = b := hpb a (by simp)
          have hdb : d ≠ b := hqb d (by simp)
          exact hdb (hpp.1 ▸ hab)
      rw [replAll]
      simp only [dif_neg hnotpre]
      simp only [List.isPrefixOf, Bool.and_eq_true, beq_iff_eq]
      exact ⟨trivial, ih t' (fun c hc => hqb c (by simp [hc])) hq't'⟩

theorem hasSub_drop (b : Char) (q : List Char) (hq : q ≠ [])
    (hqb : ∀ c ∈ q, c ≠ b) :
    ∀ (p t : List Char), (∀ c ∈ p, c = b) → p.isPrefixOf t = true →
      hasSub q t = true → hasSub q (List.drop p.length t) = true := by
  intro p
  induction p with
  | nil => intro t _ _ hsub; simpa using hsub
  | cons a as ih =>
    intro t hpb hpre hsub
    cases t with
    | nil => simp [List.isPrefixOf] at hpre
    | cons e t' =>
      simp only [List.isPrefixOf, Bool.and_eq_true, beq_iff_eq] at hpre
      obtain ⟨hae, hpre'⟩ := hpre
      have heb : e = b := hae ▸ hpb a (by simp)
      rw [hasSub] at hsub
      simp only [Bool.or_eq_true] at hsub
      have hsub' : hasSub q t' = true := by
        rcases hsub with h1 | h2
        · exfalso
          cases q with
          | nil => exact hq rfl
          | cons d q' =>
            simp only [List.isPrefixOf, Bool.and_eq_true, beq_iff_eq] at h1
            exact (hqb d (by simp)) (h1.1 ▸ heb)
        · exact h2
      simpa using ih t' (fun c hc => hpb c (by simp [hc])) hpre' hsub'

theorem hasSub_replAll (b : Char) (p q : List Char) (hp : p ≠ [])
    (hpb : ∀ c ∈ p, c = b) (hq : q ≠ []) (hqb : ∀ c ∈ q, c ≠ b) :
    ∀ t, hasSub q t = true → hasSub q (replAll p t) = true := by
  intro t
  induction t using replAll.induct p with
  | case1 =>
    intro hsub
    rw [hasSub] at hsub
    cases q with
    | nil => exact absurd rfl hq
    | cons d q' => simp [List.isPrefixOf] at hsub
  | case2 c t h ih =>
    intro hsub
    rw [replAll]
    simp only [dif_pos h]
    exact ih (hasSub_drop b q hq hqb p (c :: t) hpb h.2 hsub)
  | case3 c t h ih =>
    intro hsub
    have e1 : replAll p (c :: t) = c :: replAll p t := by
      rw [replAll]
      simp only [dif_neg h]
    rw [hasSub] at hsub
    rw [e1, hasSub]
    simp only [Bool.or_eq_true] at hsub ⊢
    rcases hsub with h1 | h2
    · left
      have hh := isPrefixOf_replAll b p hp hpb q (c :: t) hqb h1
      rw [e1] at hh
      exact hh
    · right
      exact ih h2

theorem isPrefixOf_self (l : List Char) : l.isPrefixOf l = true := by
  induction l with
  | nil => simp [List.isPrefixOf]
  | cons a t ih => simp [List.isPrefixOf, ih]

theorem isPrefixOf_append_self (l t : List Char) : l.isPrefixOf (l ++ t) = true := by
  induction l with
  | nil => simp [List.isPrefixOf]
  | cons a l' ih => simp [List.isPrefixOf, ih]

theorem hasSub_append_left (q a s : List Char) (h : hasSub q s = true) :
    hasSub q (a ++ s) = true := by
  induction a with
  | nil => simpa using h
  | cons x a' ih =>
    rw [List.cons_append, hasSub]
    simp only [Bool.or_eq_true]
    right
    exact ih

theorem hasSub_of_isPrefixOf (q s : List Char) (h : q.isPrefixOf s = true) :
    hasSub q s = true := by
  rw [hasSub.eq_def]
  simp only [Bool.or_eq_true]
  exact Or.inl h

theorem hasSub_of_append (a q t : List Char) : hasSub q (a ++ (q ++ t)) = true :=
  hasSub_append_left _ _ _ (hasSub_of_isPrefixOf _ _ (isPrefixOf_append_self q t))

theorem pyStrip_length_le (l : List Char) : (pyStrip l).length ≤ l.length := by
  unfold pyStrip
  rw [List.length_reverse]
  calc ((l.dropWhile Char.isWhitespace).reverse.dropWhile Char.isWhitespace).length
      ≤ (l.dropWhile Char.isWhitespace).reverse.length :=
        (List.dropWhile_sublist _).length_le
    _ = (l.dropWhile Char.isWhitespace).length := List.length_reverse _
    _ ≤ l.length := (List.dropWhile_sublist _).length_le

theorem pyStrip_mem (l : List Char) (c : Char) (h : c ∈ pyStrip l) : c ∈ l := by
  unfold pyStrip at h
  rw [List.mem_reverse] at h
  have h1 := (List.dropWhile_sublist Char.isWhitespace).mem h
  rw [List.mem_reverse] at h1
  exact (List.dropWhile_sublist Char.isWhitespace).mem h1

/-- A value in a result row.  The gateway serializes every database value
to JSON (coercing non-serializable types to text); we model a cell as
either SQL NULL (`none`) or a stringified scalar (`some s`). -/
abbrev Value := Option String

/-- One entry of the chat history: a `{question, answer}` pair. -/
structure ChatEntry where
  question : String
  answer : String
deriving DecidableEq

/-- The parsed JSON body of the inbound request.  `chat_input = none`
models a missing key or a JSON `null` (both make `req_data.get` return
Python `None`). -/
structure ReqData where
  chat_input : Option String
  chat_history : List ChatEntry
  user_name : String

/-- Result of `database_plugin.execute_query`, i.e. the parsed form of the
JSON it returns (`success`, `column_names`, `rows`, `row_count` on the
success path; `success = false` with `error` on the failure path, where
the failure JSON carries no rows and `get("row_count", 0)` yields 0). -/
structure QueryResult where
  success : Bool
  column_names : List String
  rows : List (List (String × Value))
  row_count : Nat
  error : String
deriving DecidableEq

/-- String wrapper for `replAll`. -/
def replAllS (p : List Char) (s : String) : String := String.mk (replAll p s.data)

/-- Python `s.strip()` on `String`. -/
def pyStripS (s : String) : String := String.mk (pyStrip s.data)

/-- Python `s.lower()` (modeled with `Char.toLower`). -/
def pyLowerS (s : String) : String := String.mk (s.data.map Char.toLower)

/-- Boolean test `pat in s` on strings. -/
def containsStr (pat s : String) : Bool := hasSub pat.data s.data

/-- The pattern "sql" removed by the gateway cleanup. -/
def sqlChars : List Char := ['s', 'q', 'l']

/-- The code-fence pattern of three backticks. -/
def fenceChars : List Char := [btick, btick, btick]

/-- The pattern "```sql" removed by the SQL synthesizer cleanup. -/
def fenceSqlChars : List Char := fenceChars ++ sqlChars

/-- `database_plugin.execute_query` line 71:
`sql_query.replace('```', '').replace('sql', '').replace("`", "").strip()`. -/
def cleanQuery (s : String) : String :=
  pyStripS (replAllS [btick] (replAllS sqlChars (replAllS fenceChars s)))

/-- The synthesizer cleanup used by `generate_sql` (line 359) and
`process_list_query` (line 476):
`content.strip()` then `.replace('```sql', '').replace('```', '').strip()`. -/
def cleanSynthesized (s : String) : String :=
  pyStripS (replAllS fenceChars (replAllS fenceSqlChars (pyStripS s)))

/-- Outcome of the external database engine for one `execute_query` call:
the connection attempt fails, `cursor.execute` raises, `fetchall` raises,
or everything succeeds with the given column names and row tuples. -/
inductive ExecOutcome where
  | connectFail (msg : String)
  | executeFail (msg : String)
  | fetchFail (msg : String)
  | success (cols : List String) (rows : List (List Value))
deriving DecidableEq

/-- Which of the cursor / connection resources the call opened and closed
before returning. -/
structure DbCallState where
  connOpened : Bool
  connClosed : Bool
  cursorOpened : Bool
  cursorClosed : Bool
deriving DecidableEq

/-- Everything observable about one `execute_query` call: the cleaned
statement handed to `cursor.execute`, the resource state at return, and
the returned (parsed) JSON payload. -/
structure DbCall where
  executedSql : String
  state : DbCallState
  result : QueryResult

/-- `json_row` construction of `execute_query` lines 103-112: pair each
column name with the row value at the same index. -/
def toJsonRow (cols : List String) (row : List Value) : List (String × Value) :=
  cols.zip row

/-- `database_plugin.execute_query` (lines 59-129).  The cleanup of line 71
always runs; the `try`/`except` turns any raise into the failure JSON
`{"success": false, "error": ...}`.  `cursor.close()` / `conn.close()`
(lines 99-100) run only after a successful fetch — there is no
`finally`, so a raise from `cursor.execute` or `fetchall` returns with
both resources still open. -/
def execute_query (sql_query : String) (oc : ExecOutcome) : DbCall :=
  let cleaned := cleanQuery sql_query
  match oc with
  | .connectFail m =>
      { executedSql := cleaned,
        state := ⟨false, false, false, false⟩,
        result := ⟨false, [], [], 0, m⟩ }
  | .executeFail m =>
      { executedSql := cleaned,
        state := ⟨true, false, true, false⟩,
        result := ⟨false, [], [], 0, m⟩ }
  | .fetchFail m =>
      { executedSql := cleaned,
        state := ⟨true, false, true, false⟩,
        result := ⟨false, [], [], 0, m⟩ }
  | .success cols rows =>
      { executedSql := cleaned,
        state := ⟨true, true, true, true⟩,
        result := ⟨true, cols, rows.map (toJsonRow cols), rows.length, ""⟩ }

/-- Result of `database_plugin.check_result_size`. -/
structure SizeCheck where
  is_too_large : Bool
  message : String
deriving DecidableEq

/-- `database_plugin.check_result_size` (lines 135-166).  `none` models an
unparseable `result` string (the `except` path); a parsed payload reads
`row_count` with default 0 and compares against 10000. -/
def check_result_size (o : Option QueryResult) : SizeCheck :=
  match o with
  | none =>
      ⟨true, "Error processing results"⟩
  | some q =>
      if q.row_count > 10000 then
        ⟨true, "Too many records found for the prompt (exceeds 10000 records). Please refine your query."⟩
      else
        ⟨false, "Result size is acceptable."⟩

/-- Parsed form of the classifier model's JSON answer.  A field is `none`
when the key is absent from the model's JSON object. -/
structure ClassJson where
  is_relevant : Option Bool
  response : Option String
  refers_to_previous : Option Bool
  is_list_request : Option Bool
  list_reasoning : Option String
deriving DecidableEq

/-- Outcome of the classifier's chat-completion call:
`failure` = the transport raised or `json.loads` failed on the reply;
`parsed j` = the reply parsed to the JSON object `j`. -/
inductive ClassifyOutcome where
  | failure
  | parsed (j : ClassJson)
deriving DecidableEq

/-- The fallback classification built in the `except` block of
`check_relevance` (lines 154-158). -/
def classifyFallback : ClassJson :=
  { is_relevant := some true,
    response := some "",
    refers_to_previous := none,
    is_list_request := some false,
    list_reasoning := none }

/-- An apostrophe, used inside template texts. -/
def apos : String := String.mk [Char.ofNat 39]

/-- `query_plugin._extract_last_interaction`: the most recent history
entry whose stripped question and answer are both nonempty, with the
stripped values. -/
def extractLastInteraction (chat_history : List ChatEntry) : Option ChatEntry :=
  (chat_history.reverse.find? fun e =>
      pyStripS e.question ≠ "" && pyStripS e.answer ≠ "").map
    fun e => ⟨pyStripS e.question, pyStripS e.answer⟩

/-- The personalized greeting template of `check_relevance` lines 145-146
(inner prompt whitespace simplified to single spaces). -/
def customGreeting (user_name : String) (li : ChatEntry) : String :=
  let greeting_name := if user_name ≠ "" && pyStripS user_name ≠ "" then ", " ++ user_name else ""
  "Hi" ++ greeting_name ++ "! I" ++ apos ++ "m your Financial Reconciliation Agent. In our previous conversation, you asked about " ++ li.question ++ "\nHow can I help you with your financial data analysis today?"

/-- `query_plugin.check_relevance` (lines 82-158).  The prompt text is
consumed by the model oracle `oc`.  Any raise inside the `try` — a
transport error, unparseable JSON, or the `KeyError` from
`result["is_relevant"]` on line 143 when the key is absent — lands in the
`except` block, which returns `classifyFallback`.  When the parsed result
says not relevant and the history holds an answered interaction, the
`response` field is replaced by the template greeting. -/
def check_relevance (user_input : String) (chat_history : List ChatEntry)
    (user_name : String) (oc : ClassifyOutcome) : ClassJson :=
  match oc with
  | .failure => classifyFallback
  | .parsed j =>
    match j.is_relevant with
    | none => classifyFallback
    | some rel =>
      if rel = false then
        match extractLastInteraction chat_history with
        | some li => { j with response := some (customGreeting user_name li) }
        | none => j
      else j

/-- The fixed fallback statement of `generate_sql` /
`process_list_query` on synthesis failure. -/
def fallbackSql : String :=
  "SELECT TOP 10 * FROM AdyenPaymentTransaction; -- Error generating specific query"

/-- `query_plugin.generate_sql` (lines 164-366).  The two chat-completion
calls (rephrase, SQL) are collapsed into the oracle `oc`: `some c` is the
final model content, `none` means one of the calls raised, landing in the
`except` block that returns `fallbackSql`.  On success the content is
stripped and stripped of code fences (line 357-359). -/
def generate_sql (user_input : String) (chat_history : List ChatEntry)
    (oc : Option String) : String :=
  match oc with
  | some c => cleanSynthesized c
  | none => fallbackSql

/-- The parsed form of the JSON returned by `process_list_query`. -/
structure ListResult where
  sql_query : String
  response : String
  csv_url : Option String
deriving DecidableEq

/-- `query_plugin.process_list_query` (lines 372-498).  The SQL-generation
model call is the oracle `oc`.  On success it returns the `dummy_result`
of lines 484-488: a fixed response text and `csv_url = None` — the
comment on lines 480-482 expects `main` to execute the SQL and generate
the CSV afterwards, which `main` never does.  On a raise it returns the
error payload of lines 494-498 (also with `csv_url = None`). -/
def process_list_query (user_input : String) (chat_history : List ChatEntry)
    (oc : Option String) : ListResult :=
  match oc with
  | some c =>
      { sql_query := cleanSynthesized c,
        response := "This is a list request that requires CSV generation.",
        csv_url := none }
  | none =>
      { sql_query := fallbackSql,
        response := "I encountered an error while processing your request for a list of transactions. Please try again with more specific criteria.",
        csv_url := none }

/-- The `list_indicators` of `should_generate_csv` (line 525). -/
def listIndicators : List String :=
  ["list", "all transactions", "download", "csv", "excel", "export"]

/-- `query_plugin.should_generate_csv` (lines 504-536): "false" for an
unsuccessful result; otherwise "true" iff the lowercased question
contains a list indicator or the result has more than 20 rows. -/
def should_generate_csv (user_input : String) (q : QueryResult) : String :=
  if q.success = false then "false"
  else
    let kw := listIndicators.any fun i => containsStr i (pyLowerS user_input)
    let sg := kw || decide (q.row_count > 20)
    if sg then "true" else "false"

/-- The blob-storage configuration read from environment variables in
`storage_plugin._upload_to_blob_storage` (lines 112-114). -/
structure StorageEnv where
  connection_string : String
  container_name : String
  account_url : String
deriving DecidableEq

/-- `overwrite=True` passed to `blob_client.upload_blob` on line 134:
a second upload under the same blob name replaces the first object. -/
def uploadOverwriteMode : Bool := true

/-- The local CSV file name `query_results_{timestamp}.csv` (line 54),
which becomes the basename used in the blob name. -/
def csvFileName (tsFile : String) : String := "query_results_" ++ tsFile ++ ".csv"

/-- The blob name `{timestamp}_{file_name}` (line 127). -/
def blobName (tsBlob fileName : String) : String := tsBlob ++ "_" ++ fileName

/-- The blob URL `{account_url}/{container_name}/{blob_name}` (line 137)
for the export of a result, as a function of the two `datetime.now()`
readings (file-name timestamp and blob-name timestamp). -/
def blobUrlOf (env : StorageEnv) (tsBlob tsFile : String) : String :=
  env.account_url ++ "/" ++ env.container_name ++ "/" ++ blobName tsBlob (csvFileName tsFile)

/-- `storage_plugin._upload_to_blob_storage` (lines 100-143): `none` when
any configuration variable is missing or the upload raises
(`uploadOk = false`), otherwise the blob URL. -/
def uploadToBlobStorage (env : StorageEnv) (tsBlob tsFile : String)
    (uploadOk : Bool) : Option String :=
  if env.connection_string = "" || env.container_name = "" || env.account_url = "" then
    none
  else if uploadOk = false then
    none
  else
    some (blobUrlOf env tsBlob tsFile)

/-- `storage_plugin._save_to_csv` (lines 73-98): `none` when the CSV write
raises (`writeOk = false`), otherwise the upload result. -/
def saveToCsv (env : StorageEnv) (tsBlob tsFile : String)
    (writeOk uploadOk : Bool) : Option String :=
  if writeOk = false then none
  else uploadToBlobStorage env tsBlob tsFile uploadOk

/-- `row_data.get(col, None)` on an association-list row. -/
def dictGet (row : List (String × Value)) (col : String) : Value :=
  match row.find? (fun p => p.1 == col) with
  | some p => p.2
  | none => none

/-- `storage_plugin.generate_csv` (lines 23-71).  Returns the blob URL on
success; on an unsuccessful result, an empty row set, or a `None`/empty
URL from `_save_to_csv` it returns the four-character STRING "null"
(lines 39, 50, 67) — not Python `None`, although the docstring on line 32
promises `None` on failure.  `tsFile` and `tsBlob` are the two
`datetime.now().strftime("%Y%m%d_%H%M%S")` readings. -/
def generate_csv (env : StorageEnv) (tsFile tsBlob : String)
    (sql_query : String) (q : QueryResult) (writeOk uploadOk : Bool) : String :=
  if q.success = false then "null"
  else
    let rows := q.rows.map fun rd => q.column_names.map fun c => dictGet rd c
    if rows = [] then "null"
    else
      match saveToCsv env tsBlob tsFile writeOk uploadOk with
      | some u => if u = "" then "null" else u
      | none => "null"

/-- The fixed too-large message of `response_plugin.format_response`
line 90. -/
def tooManyMsg : String :=
  "Too many records found for the prompt (exceeds 10000). Please refine your query."

/-- `response_plugin.format_response` (lines 57-130), returning the answer
text together with a flag recording whether the chat-completion call was
made.  `oc` is the model oracle: `none` means the call raised (landing in
the `except` block of line 128 after the call was attempted).  Order of
the short-circuits follows the source: unsuccessful result (line 77),
empty rows (line 85), more than 10000 rows (line 89), then the model
call; afterwards, if `csv_url` is truthy and the marker "Download URL:"
is absent from the stripped model text, the marker and URL are appended
(lines 123-124). -/
def format_response (user_input : String) (q : QueryResult) (sql_query : String)
    (chat_history : List ChatEntry) (csv_url : String) (oc : Option String) :
    String × Bool :=
  if q.success = false then
    ("I encountered an error executing your query: " ++ q.error, false)
  else if q.rows = [] then
    ("No data found for the prompt.", false)
  else if q.row_count > 10000 then
    (tooManyMsg, false)
  else
    match oc with
    | none =>
        ("I apologize, but I encountered an error processing your request. Please try again or rephrase your question.", true)
    | some content =>
        let formatted := pyStripS content
        let final :=
          if csv_url ≠ "" && containsStr "Download URL:" formatted = false then
            formatted ++ "\n\nDownload URL: " ++ csv_url
          else formatted
        (final, true)

/-- Pipeline stages that the endpoint can invoke, in invocation order. -/
inductive Component where
  | classifier
  | listSql
  | querySql
  | dbGateway
  | shouldCsv
  | exportWriter
  | answerComposer
deriving DecidableEq

/-- The HTTP-level outcome of one request: a JSON body
`{chat_output, csv_url}` or an `HTTPException` with a status code. -/
inductive HttpOutcome where
  | ok (chat_output : String) (csv_url : Option String)
  | httpError (status : Nat) (detail : String)
deriving DecidableEq

/-- External behavior for one request: the classification-model outcome,
the synthesis-model outcomes, the database outcome, the storage
configuration and I/O outcomes, the two timestamp readings inside the
export writer, and the answer-composition model outcome. -/
structure Oracles where
  classify : ClassifyOutcome
  listSqlGen : Option String
  sqlGen : Option String
  dbOutcome : ExecOutcome
  storageEnv : StorageEnv
  writeOk : Bool
  uploadOk : Bool
  tsFile : String
  tsBlob : String
  composeModel : Option String

/-- Rendering of `str(e)` for a `starlette.HTTPException`:
`"{status_code}: {detail}"`. -/
def httpExcStr (status : Nat) (detail : String) : String :=
  toString status ++ ": " ++ detail

/-- The detail text of the 400 `HTTPException` raised on line 71 of
`main.py`. -/
def missingInputDetail : String :=
  "Please provide a valid question in the request body"

/-- `main.recon_agent_endpoint` (lines 62-151), returning the HTTP outcome
and the trace of plugin invocations performed.

Faithfulness notes:
* `if not user_input` (line 70) is true for a missing key, JSON `null`,
  and the empty string; the `HTTPException(400)` it raises is an
  `Exception`, so it is caught by the blanket `except` on line 149, which
  raises `HTTPException(500, "Error processing request: " + str(e))` —
  the client observes status 500, never 400.
* The list branch (lines 100-108) returns `process_list_query`'s payload
  directly; it never invokes the database gateway, the export writer or
  the answer composer.
* In the query branch, `csv_url = str(csv_result)` (line 138) makes the
  response's `csv_url` whatever string `generate_csv` returned —
  including the string "null" on export failure — while `csv_url` stays
  `None` when the heuristic said not to export. -/
def recon_agent_endpoint (req : ReqData) (oc : Oracles) :
    HttpOutcome × List Component :=
  let falsy := match req.chat_input with
    | none => true
    | some s => s = ""
  if falsy then
    (.httpError 500 ("Error processing request: " ++ httpExcStr 400 missingInputDetail), [])
  else
    let user_input := match req.chat_input with
      | some s => s
      | none => ""
    let rel := check_relevance user_input req.chat_history req.user_name oc.classify
    let is_relevant := rel.is_relevant.getD false
    let general_response := rel.response.getD ""
    let is_list_request := rel.is_list_request.getD false
    if is_relevant = false then
      (.ok general_response none, [.classifier])
    else if is_list_request then
      let ld := process_list_query user_input req.chat_history oc.listSqlGen
      (.ok ld.response ld.csv_url, [.classifier, .listSql])
    else
      let sql := generate_sql user_input req.chat_history oc.sqlGen
      let call := execute_query sql oc.dbOutcome
      let q := call.result
      let sg := should_generate_csv user_input q
      if sg = "true" then
        let csvRes := generate_csv oc.storageEnv oc.tsFile oc.tsBlob sql q
          oc.writeOk oc.uploadOk
        let passed := if csvRes = "" then "" else csvRes
        let resp := format_response user_input q sql req.chat_history passed
          oc.composeModel
        (.ok resp.1 (some csvRes),
         [.classifier, .querySql, .dbGateway, .shouldCsv, .exportWriter, .answerComposer])
      else
        let resp := format_response user_input q sql req.chat_history "" oc.composeModel
        (.ok resp.1 none,
         [.classifier, .querySql, .dbGateway, .shouldCsv, .answerComposer])

/-! ### Concrete fixtures used by the claim theorems -/

/-- A fully configured blob-storage environment. -/
def envOk : StorageEnv :=
  ⟨"DefaultEndpointsProtocol=https", "exports", "https://acct.blob.core.windows.net"⟩

/-- Classifier verdict: relevant, not a list request. -/
def clsQuery : ClassJson := ⟨some true, some "", some false, some false, none⟩

/-- Classifier verdict: relevant, a list request. -/
def clsList : ClassJson := ⟨some true, some "", some false, some true, some "asks for a list"⟩

/-- A successful one-row tabular result. -/
def qSmall : QueryResult := ⟨true, ["A"], [[("A", some "1")]], 1, ""⟩

/-- A successful result of exactly 10000 rows (the boundary). -/
def q10000 : QueryResult :=
  ⟨true, ["A"], List.replicate 10000 [("A", some "1")], 10000, ""⟩

/-- A successful result of 10001 rows (just past the boundary). -/
def q10001 : QueryResult :=
  ⟨true, ["A"], List.replicate 10001 [("A", some "1")], 10001, ""⟩

/-- 10001 fetched row tuples, as the database oracle returns them. -/
def rowsBig : List (List Value) := List.replicate 10001 [some "x"]

/-! ### Claim theorems -/

/-- Helper: whenever a successful Tabular Result (row_count consistent
with rows) has more than 10000 rows, `format_response` short-circuits to
the fixed too-many-records message without calling the model. -/
theorem format_response_of_too_large (u : String) (q : QueryResult) (s : String)
    (ch : List ChatEntry) (curl : String) (oc : Option String)
    (hs : q.success = true) (hinv : q.row_count = q.rows.length)
    (hbig : q.row_count > 10000) :
    format_response u q s ch curl oc = (tooManyMsg, false) := by
  have hne : q.rows ≠ [] := by
    intro h
    rw [h] at hinv
    simp at hinv
    omega
  rw [format_response.eq_def, hs]
  simp [hne, hbig]

/-- C7: when the Query Classifier's model call fails or returns
unparseable output, `check_relevance` returns the fail-open
classification: `is_relevant = true` and `is_list_request = false`. -/
theorem c7_classifier_fails_open (user_input : String)
    (chat_history : List ChatEntry) (user_name : String) :
    check_relevance user_input chat_history user_name .failure =
      { is_relevant := some true, response := some "",
        refers_to_previous := none, is_list_request := some false,
        list_reasoning := none } := rfl

/-- C2 (code bug): a request body whose `chat_input` is missing/null or
empty yields HTTP 500, not a 4xx client error: the `HTTPException(400)`
raised on line 71 of `main.py` is swallowed by the blanket
`except Exception` on line 149 and re-raised as a 500. -/
theorem c2_missing_chat_input_returns_500 (oc : Oracles)
    (ch : List ChatEntry) (un : String) :
    recon_agent_endpoint ⟨none, ch, un⟩ oc =
      (.httpError 500 ("Error processing request: " ++ httpExcStr 400 missingInputDetail), []) ∧
    recon_agent_endpoint ⟨some "", ch, un⟩ oc =
      (.httpError 500 ("Error processing request: " ++ httpExcStr 400 missingInputDetail), []) :=
  ⟨rfl, rfl⟩

/-- C3 counterexample: when `cursor.execute` raises, `execute_query`
returns with the connection and cursor opened but NOT closed — there is
no `finally`, so the claim that both are always closed on failure paths
is false. -/
theorem c3_counterexample_leak :
    (execute_query "SELECT * FROM AdyenPaymentTransaction"
        (.executeFail "invalid object name")).state.connOpened = true ∧
    (execute_query "SELECT * FROM AdyenPaymentTransaction"
        (.executeFail "invalid object name")).state.connClosed = false ∧
    (execute_query "SELECT * FROM AdyenPaymentTransaction"
        (.executeFail "invalid object name")).state.cursorClosed = false := by
  exact ⟨rfl, rfl, rfl⟩

/-- C3 amended: the cursor and connection are closed before return on the
success path, but when statement execution or row fetching raises they
are left open (the call leaks them). -/
theorem c3_resources_closed_only_on_success (sql : String) (oc : ExecOutcome) :
    (∀ cols rows, oc = .success cols rows →
      (execute_query sql oc).state = ⟨true, true, true, true⟩) ∧
    (∀ m, oc = .executeFail m ∨ oc = .fetchFail m →
      (execute_query sql oc).state = ⟨true, false, true, false⟩) := by
  constructor
  · intro cols rows h
    subst h
    rfl
  · intro m h
    rcases h with h | h <;> subst h <;> rfl

/-- Witness for C3 at concrete inputs. -/
theorem c3_witness :
    (execute_query "SELECT 1" (.success ["A"] [[some "1"]])).state = ⟨true, true, true, true⟩ ∧
    (execute_query "SELECT 1" (.executeFail "boom")).state = ⟨true, false, true, false⟩ :=
  ⟨(c3_resources_closed_only_on_success "SELECT 1" (.success ["A"] [[some "1"]])).1
      ["A"] [[some "1"]] rfl,
   (c3_resources_closed_only_on_success "SELECT 1" (.executeFail "boom")).2
      "boom" (Or.inl rfl)⟩

/-- C10: the gateway cleanup removes every backtick from the statement it
executes, and because it also removes every occurrence of the lowercase
substring "sql" anywhere in the text, any supplied statement containing
"sql" (inside or outside a code fence, e.g. in an identifier) is executed
as a DIFFERENT statement than the one supplied. -/
theorem c10_cleanup_mangles_sql (s : String) (oc : ExecOutcome) :
    (∀ c ∈ (execute_query s oc).executedSql.data, c ≠ btick) ∧
    (hasSub sqlChars s.data = true → (execute_query s oc).executedSql ≠ s) := by
  have hexec : (execute_query s oc).executedSql = cleanQuery s := by
    cases oc <;> rfl
  rw [hexec]
  constructor
  · intro c hc
    have h1 : c ∈ replAll [btick] (replAll sqlChars (replAll fenceChars s.data)) :=
      pyStrip_mem _ c hc
    exact not_mem_replAll_single btick _ c h1
  · intro hsub
    have hfence : ∀ c ∈ fenceChars, c = btick := by decide
    have hsqlne : sqlChars ≠ [] := by decide
    have hsqlb : ∀ c ∈ sqlChars, c ≠ btick := by decide
    have h1 : hasSub sqlChars (replAll fenceChars s.data) = true :=
      hasSub_replAll btick fenceChars sqlChars (by decide) hfence hsqlne hsqlb s.data hsub
    have h2 : (replAll sqlChars (replAll fenceChars s.data)).length <
        (replAll fenceChars s.data).length :=
      replAll_length_lt sqlChars _ hsqlne h1
    have h3 : (replAll fenceChars s.data).length ≤ s.data.length :=
      replAll_length_le fenceChars s.data
    have h4 : (replAll [btick] (replAll sqlChars (replAll fenceChars s.data))).length ≤
        (replAll sqlChars (replAll fenceChars s.data)).length :=
      replAll_length_le [btick] _
    have h5 : (cleanQuery s).data.length < s.data.length := by
      have h6 : (cleanQuery s).data.length ≤
          (replAll [btick] (replAll sqlChars (replAll fenceChars s.data))).length :=
        pyStrip_length_le _
      omega
    intro he
    rw [he] at h5
    omega

/-- Witness for C10: a statement containing "sql" inside an identifier is
mangled before execution; the executed text also carries no backticks. -/
theorem c10_witness :
    (∀ c ∈ (execute_query "SELECT A FROM mysqltable" (.success [] [])).executedSql.data,
      c ≠ btick) ∧
    (execute_query "SELECT A FROM mysqltable" (.success [] [])).executedSql ≠
      "SELECT A FROM mysqltable" :=
  ⟨(c10_cleanup_mangles_sql "SELECT A FROM mysqltable" (.success [] [])).1,
   (c10_cleanup_mangles_sql "SELECT A FROM mysqltable" (.success [] [])).2 (by decide)⟩

/-- C6: `check_result_size` flags a Tabular Result as too large exactly
when row_count exceeds 10000 (so 10000 rows are not flagged and 10001
are), and for every consistent successful result past the boundary the
Answer Composer returns the fixed too-many-records message without
invoking the language model (the returned flag is `false`). -/
theorem c6_size_boundary (q : QueryResult) (u s curl : String)
    (ch : List ChatEntry) (oc : Option String) :
    ((check_result_size (some q)).is_too_large = decide (q.row_count > 10000)) ∧
    (q.success = true → q.row_count = q.rows.length → q.row_count > 10000 →
      format_response u q s ch curl oc = (tooManyMsg, false)) := by
  constructor
  · rw [check_result_size]
    by_cases h : q.row_count > 10000
    · simp [h]
    · simp [h]
  · exact fun hs hinv hbig => format_response_of_too_large u q s ch curl oc hs hinv hbig

/-- Witness for C6 at the boundary: 10000 rows not flagged, 10001 rows
flagged, and the composer short-circuits at 10001 rows. -/
theorem c6_witness :
    (check_result_size (some q10000)).is_too_large = false ∧
    (check_result_size (some q10001)).is_too_large = true ∧
    format_response "u" q10001 "s" [] "" (some "m") = (tooManyMsg, false) := by
  have h0 := (c6_size_boundary q10000 "u" "s" "" [] (some "m")).1
  have h1 := (c6_size_boundary q10001 "u" "s" "" [] (some "m")).1
  have hlen : q10001.rows.length = 10001 := by
    show (List.replicate 10001 ([("A", some "1")] : List (String × Value))).length = 10001
    exact List.length_replicate _ _
  have hinv : q10001.row_count = q10001.rows.length := by
    rw [hlen]
    rfl
  have h2 := (c6_size_boundary q10001 "u" "s" "" [] (some "m")).2 rfl hinv (by decide)
  exact ⟨h0.trans (by decide), h1.trans (by decide), h2⟩

/-- The request of the C5 counterexample: a relevant summary question. -/
def reqSummarise : ReqData := ⟨some "summarise transactions for April", [], ""⟩

/-- Oracles of the C5 counterexample: the gateway fetches 10001 rows. -/
def ocBigResult : Oracles :=
  { classify := .parsed clsQuery, listSqlGen := none,
    sqlGen := some "SELECT PSPREFERENCE FROM AdyenPaymentTransaction",
    dbOutcome := .success ["PSPREFERENCE"] rowsBig,
    storageEnv := envOk, writeOk := true, uploadOk := true,
    tsFile := "20240501_101010", tsBlob := "20240501_101011",
    composeModel := some "ans" }

/-- C5 counterexample: a successful 10001-row result is NOT treated as
terminal by the pipeline before export: the export heuristic returns
"true" (any successful result above 20 rows triggers export), so the
endpoint invokes the Export Writer on it. -/
theorem c5_counterexample_export_invoked :
    should_generate_csv "summarise transactions for April" q10001 = "true" ∧
    Component.exportWriter ∈ (recon_agent_endpoint reqSummarise ocBigResult).2 := by
  constructor
  · rw [should_generate_csv]
    have hsucc : q10001.success = true := rfl
    have hrc : q10001.row_count = 10001 := rfl
    rw [hsucc, hrc]
    simp
  · have hlen : rowsBig.length = 10001 := by
      rw [rowsBig]
      exact List.length_replicate _ _
    have hsg : ∀ (s : String),
        should_generate_csv "summarise transactions for April"
          (execute_query s (.success ["PSPREFERENCE"] rowsBig)).result = "true" := by
      intro s
      rw [should_generate_csv]
      have hsucc : (execute_query s (.success ["PSPREFERENCE"] rowsBig)).result.success
          = true := rfl
      have hrc : (execute_query s (.success ["PSPREFERENCE"] rowsBig)).result.row_count
          = 10001 := hlen
      rw [hsucc, hrc]
      simp
    rw [recon_agent_endpoint]
    simp only [reqSummarise, ocBigResult]
    rw [hsg]
    have hcls : check_relevance "summarise transactions for April" [] ""
        (ClassifyOutcome.parsed clsQuery) = clsQuery := by decide
    rw [hcls]
    simp [clsQuery]

/-- C5 amended: a Tabular Result with row_count > 10000 does short-circuit
answer composition (fixed message, no model call), but it is NOT shielded
from export generation: the should-export heuristic answers "true" for
every successful result above 20 rows, which includes every too-large
result. -/
theorem c5_too_large_skips_model_but_not_export (q : QueryResult)
    (u s curl : String) (ch : List ChatEntry) (oc : Option String)
    (hs : q.success = true) (hinv : q.row_count = q.rows.length)
    (hbig : q.row_count > 10000) :
    should_generate_csv u q = "true" ∧
    format_response u q s ch curl oc = (tooManyMsg, false) := by
  constructor
  · rw [should_generate_csv, hs]
    have h20 : q.row_count > 20 := by omega
    simp [h20]
  · exact format_response_of_too_large u q s ch curl oc hs hinv hbig

/-- Witness for C5 at a concrete 10001-row result. -/
theorem c5_witness :
    should_generate_csv "u" q10001 = "true" ∧
    format_response "u" q10001 "s" [] "" (some "m") = (tooManyMsg, false) := by
  have hlen : q10001.rows.length = 10001 := by
    show (List.replicate 10001 ([("A", some "1")] : List (String × Value))).length = 10001
    exact List.length_replicate _ _
  have hinv : q10001.row_count = q10001.rows.length := by
    rw [hlen]
    rfl
  exact c5_too_large_skips_model_but_not_export q10001 "u" "s" "" [] (some "m")
    rfl hinv (by decide)

/-- C8 counterexample: an Answer Composer invocation carrying a non-empty
export address does NOT always return text containing "Download URL:":
the too-large short-circuit (reachable, since oversized successful
results are still exported) returns the fixed message with no marker. -/
theorem c8_counterexample_marker_missing :
    format_response "q" q10001 "s" []
      "https://acct.blob.core.windows.net/exports/x.csv" (some "model answer")
      = (tooManyMsg, false) ∧
    containsStr "Download URL:" tooManyMsg = false := by
  constructor
  · have hlen : q10001.rows.length = 10001 := by
      show (List.replicate 10001 ([("A", some "1")] : List (String × Value))).length = 10001
      exact List.length_replicate _ _
    have hinv : q10001.row_count = q10001.rows.length := by
      rw [hlen]
      rfl
    exact format_response_of_too_large "q" q10001 "s" []
      "https://acct.blob.core.windows.net/exports/x.csv" (some "model answer")
      rfl hinv (by decide)
  · decide

/-- C8 amended: on the model-composition path (successful result,
non-empty rows, at most 10000 rows, model call succeeded) with a
non-empty export address, if the model's stripped output lacks the
literal marker "Download URL:", the composer appends the marker followed
by the address, so the returned text contains "Download URL: {address}";
the short-circuit paths return fixed messages without the marker even
when an address exists. -/
theorem c8_marker_appended (u : String) (q : QueryResult)
    (s curl m : String) (ch : List ChatEntry)
    (hs : q.success = true) (hne : q.rows ≠ []) (hsz : ¬ q.row_count > 10000)
    (hcu : curl ≠ "") (hm : containsStr "Download URL:" (pyStripS m) = false) :
    format_response u q s ch curl (some m) =
      (pyStripS m ++ "\n\nDownload URL: " ++ curl, true) ∧
    containsStr ("Download URL: " ++ curl)
      (pyStripS m ++ "\n\nDownload URL: " ++ curl) = true := by
  constructor
  · rw [format_response.eq_def, hs]
    simp [hne, hsz, hcu, hm]
  · show hasSub ("Download URL: " ++ curl).data
      (pyStripS m ++ "\n\nDownload URL: " ++ curl).data = true
    have e1 : (pyStripS m ++ "\n\nDownload URL: " ++ curl).data
        = ((pyStripS m).data ++ "\n\n".data) ++
          (("Download URL: " ++ curl).data ++ ([] : List Char)) := by
      simp only [String.data_append, List.append_assoc, List.append_nil]
      rfl
    rw [e1]
    exact hasSub_of_append _ _ _

/-- Witness for C8 at a concrete small result and address. -/
theorem c8_witness :
    format_response "u" qSmall "s" [] "https://acct.blob.core.windows.net/exports/x.csv"
      (some "answer") =
      (pyStripS "answer" ++ "\n\nDownload URL: " ++
        "https://acct.blob.core.windows.net/exports/x.csv", true) ∧
    containsStr ("Download URL: " ++ "https://acct.blob.core.windows.net/exports/x.csv")
      (pyStripS "answer" ++ "\n\nDownload URL: " ++
        "https://acct.blob.core.windows.net/exports/x.csv") = true :=
  c8_marker_appended "u" qSmall "s" "https://acct.blob.core.windows.net/exports/x.csv"
    "answer" [] rfl (by decide) (by decide) (by decide) (by decide)

/-- C9 counterexample: two Export Writer invocations that read the same
second-resolution timestamps (i.e. fall within the same clock second)
both produce THIS very address — the addresses are equal, not distinct —
and the upload is performed with overwrite enabled, so the second call
replaces the first object. -/
theorem c9_counterexample_same_second_collision :
    generate_csv envOk "20240101_120000" "20240101_120000" "SELECT A FROM T"
      qSmall true true =
      "https://acct.blob.core.windows.net/exports/20240101_120000_query_results_20240101_120000.csv" ∧
    uploadOverwriteMode = true := by
  exact ⟨by decide, rfl⟩

/-- C9 amended: with the fixed 15-character `%Y%m%d_%H%M%S` timestamps,
two Export Writer invocations against the same storage environment
produce distinct blob addresses IF AND ONLY IF their timestamp readings
differ; same-second invocations collide on the same address, and the
upload always runs with overwrite enabled. -/
theorem c9_distinct_iff_timestamps (env : StorageEnv) (tb tf tb' tf' : String)
    (hb : tb.length = 15) (hf : tf.length = 15)
    (hb' : tb'.length = 15) (hf' : tf'.length = 15) :
    (blobUrlOf env tb tf = blobUrlOf env tb' tf' ↔ (tb = tb' ∧ tf = tf')) ∧
    uploadOverwriteMode = true := by
  refine ⟨⟨fun h => ?_, fun h => by rw [h.1, h.2]⟩, rfl⟩
  have hd := congrArg String.data h
  simp only [blobUrlOf, blobName, csvFileName, String.data_append,
    List.append_assoc] at hd
  have h1 := List.append_cancel_left hd
  have h2 := List.append_cancel_left h1
  have h3 := List.append_cancel_left h2
  have h4 := List.append_cancel_left h3
  have hblen : tb.data.length = tb'.data.length := by
    have e1 : tb.data.length = 15 := hb
    have e2 : tb'.data.length = 15 := hb'
    rw [e1, e2]
  obtain ⟨htb, hrest⟩ := List.append_inj h4 hblen
  have h5 := List.append_cancel_left hrest
  have h6 := List.append_cancel_left h5
  have hflen : tf.data.length = tf'.data.length := by
    have e1 : tf.data.length = 15 := hf
    have e2 : tf'.data.length = 15 := hf'
    rw [e1, e2]
  obtain ⟨htf, -⟩ := List.append_inj h6 hflen
  exact ⟨String.ext htb, String.ext htf⟩

/-- Witness for C9 at two concrete same-env invocations one second
apart: the addresses differ. -/
theorem c9_witness :
    (blobUrlOf envOk "20240101_120000" "20240101_120000" =
        blobUrlOf envOk "20240101_120001" "20240101_120001" ↔
      ("20240101_120000" : String) = "20240101_120001" ∧
      ("20240101_120000" : String) = "20240101_120001") ∧
    uploadOverwriteMode = true :=
  c9_distinct_iff_timestamps envOk "20240101_120000" "20240101_120000"
    "20240101_120001" "20240101_120001" (by decide) (by decide) (by decide) (by decide)

/-- The request of the C1 scenario: a list question. -/
def reqList : ReqData := ⟨some "list all refused transactions in April", [], "tester"⟩

/-- 500 fetched row tuples, as in the C1 scenario. -/
def rows500 : List (List Value) := List.replicate 500 [some "B25KD5G9X5STZK65"]

/-- Oracles of the C1 scenario: classifier says relevant list request, the
list-SQL model answers, and the database WOULD return 500 rows if it were
ever consulted. -/
def ocList : Oracles :=
  { classify := .parsed clsList,
    listSqlGen := some "SELECT PSPREFERENCE FROM AdyenPaymentTransaction",
    sqlGen := none,
    dbOutcome := .success ["PSPREFERENCE"] rows500,
    storageEnv := envOk, writeOk := true, uploadOk := true,
    tsFile := "20240401_120000", tsBlob := "20240401_120000",
    composeModel := some "answer" }

/-- C1 (code bug): on a relevant list request the endpoint returns
`process_list_query`'s placeholder payload directly: the Database
Gateway, Export Writer and Answer Composer are never invoked, `csv_url`
is null, and the chat output is the fixed placeholder text, which does
not contain "Download URL:". -/
theorem c1_list_branch_returns_placeholder :
    recon_agent_endpoint reqList ocList =
      (.ok "This is a list request that requires CSV generation." none,
        [.classifier, .listSql]) ∧
    Component.dbGateway ∉ (recon_agent_endpoint reqList ocList).2 ∧
    Component.exportWriter ∉ (recon_agent_endpoint reqList ocList).2 ∧
    Component.answerComposer ∉ (recon_agent_endpoint reqList ocList).2 ∧
    containsStr "Download URL:"
      "This is a list request that requires CSV generation." = false := by
  decide

/-- The request of the C4 scenario: a relevant summary question with no
export keyword. -/
def reqCaptured : ReqData := ⟨some "how many transactions were captured in April", [], ""⟩

/-- 25 fetched row tuples (above the 20-row export threshold). -/
def rows25 : List (List Value) := List.replicate 25 [some "28.82"]

/-- Oracles of the C4 scenario: a successful 25-row query whose blob
upload fails. -/
def ocUploadFail : Oracles :=
  { classify := .parsed clsQuery, listSqlGen := none,
    sqlGen := some "SELECT CAPTUREDAMOUNT FROM BankPaymentTransaction",
    dbOutcome := .success ["CAPTUREDAMOUNT"] rows25,
    storageEnv := envOk, writeOk := true, uploadOk := false,
    tsFile := "20240501_101010", tsBlob := "20240501_101011",
    composeModel := some "There were 25 captured transactions." }

/-- C4 (code bug): `generate_csv` returns the four-character STRING
"null" — not a null — on every failure (unsuccessful result, empty rows,
write failure, upload failure), and the endpoint then carries
`csv_url = "null"` (a non-null placeholder) in its response and even
appends "Download URL: null" to the chat output. -/
theorem c4_export_failure_yields_string_null :
    generate_csv envOk "t1" "t2" "s" ⟨false, [], [], 0, "err"⟩ true true = "null" ∧
    generate_csv envOk "t1" "t2" "s" ⟨true, ["A"], [], 0, ""⟩ true true = "null" ∧
    generate_csv envOk "t1" "t2" "s" qSmall true false = "null" ∧
    generate_csv envOk "t1" "t2" "s" qSmall false true = "null" ∧
    recon_agent_endpoint reqCaptured ocUploadFail =
      (.ok "There were 25 captured transactions.\n\nDownload URL: null" (some "null"),
        [.classifier, .querySql, .dbGateway, .shouldCsv, .exportWriter, .answerComposer]) ∧
    (some "null" : Option String) ≠ none := by
  decide
